import Mathlib

/-!
Verification of the target-emissions computation and the
national-vs-subnational reconciliation of the OpenClimate streamlit
data viewer (`app.py`), via a shallow embedding in Lean.

Modelling conventions:
* A pandas emissions series for one actor (the columns `year` and
  `total_emissions` of the filtered DataFrame) is a `List (ℚ × ℚ)` of
  `(year, total_emissions)` rows, in row order.  pandas float64 values
  are modelled by exact rationals.
* A raw JSON scalar returned by the OpenClimate API (the fields
  `baseline_year` and `target_value` of a pledge) is a `PyVal`: either
  a number or a string.  A numeric string is recorded together with the
  rational that Python's `float()` conversion yields for it, so that
  `float(v)` is total on the values the app can process.
* Fallible Python code (indexing `pledges[0]` into a possibly empty
  list, `list(data['year'])[-1]` on a possibly empty frame, NumPy
  subtraction of arrays with incompatible shapes) is modelled with
  `Option`: `none` is a raised exception.
-/

namespace OpenClimate

/-- A raw scalar value from the JSON pledge record.  `num q` is a JSON
number; `str s v` is a JSON string `s` that denotes the number `v`
(`float(s) = v`), recording the parse so that `float()` is total here. -/
inductive PyVal where
  | num (q : ℚ)
  | str (s : String) (v : ℚ)
deriving DecidableEq, Repr

/-- Python's `float(v)` on a pledge field. -/
def pyFloat : PyVal → ℚ
  | .num q => q
  | .str _ v => v

/-- The pandas elementwise comparison `series == v` of a float64 column
entry `y` against a raw Python value `v`: numeric against numeric
compares the numbers; a float64 column compared against a string is
elementwise `False`. -/
def pyEqNum (y : ℚ) : PyVal → Bool
  | .num q => y == q
  | .str _ _ => false

/-- A pledge record from the API (`data['targets'][i]`), with its two
fields used by the app, kept in raw JSON form. -/
structure Pledge where
  baseline_year : PyVal
  target_value : PyVal
deriving DecidableEq, Repr

/-- The dictionary returned by `get_target_emissions_dict`:
`target_emissions` is the (possibly empty) filtered series scaled by the
target factor, `baseline_year` the float conversion of the pledge's
baseline year. -/
structure TargetDict where
  target_emissions : List ℚ
  baseline_year : ℚ
deriving DecidableEq, Repr

/-- Embedding of `get_target_emissions(data, actor_id)` (app.py lines
27-34), with the pledge list fetched by `get_actor_pledge(actor_id)`
passed explicitly.  `pledges[0]` on an empty list raises (= `none`).
The `year` column is compared against the RAW `baseline_year` value
(no `float()` conversion), and every row passing the filter has its
`total_emissions` multiplied by `(100 - target_value)/100`. -/
def get_target_emissions (data : List (ℚ × ℚ)) (pledges : List Pledge) :
    Option (List ℚ) :=
  match pledges with
  | [] => none
  | p :: _ =>
    let target_value := pyFloat p.target_value
    some (((data.filter (fun r => pyEqNum r.1 p.baseline_year)).map Prod.snd).map
      (fun e => e * ((100 - target_value) / 100)))

/-- Embedding of `get_target_emissions_dict(data, actor_id)` (app.py
lines 37-44), with the pledge list passed explicitly.  Unlike
`get_target_emissions`, the `year` column is compared against
`float(pledges[0]['baseline_year'])`. -/
def get_target_emissions_dict (data : List (ℚ × ℚ)) (pledges : List Pledge) :
    Option TargetDict :=
  match pledges with
  | [] => none
  | p :: _ =>
    let baseline_year := pyFloat p.baseline_year
    let target_value := pyFloat p.target_value
    some { target_emissions :=
             ((data.filter (fun r => r.1 == baseline_year)).map Prod.snd).map
               (fun e => e * ((100 - target_value) / 100)),
           baseline_year := baseline_year }

/-- The tonnes-to-gigatonnes conversion factor of the app. -/
def conversion : ℚ := 1 / 10 ^ 9

/-- The data drawn for one country by the country container (app.py
lines 152-170): the national emissions line and, for each value in the
(possibly empty) `target_emissions` series, one dashed horizontal
segment from the baseline year to the last year of the series at that
value.  `none` models an exception: `pledges[0]` on an empty pledge
list inside `get_target_emissions_dict`, or `list(data['year'])[-1]`
on an empty frame.  `ax.plot` with a length-`k` value series draws `k`
segments and never raises, so plotting itself is total. -/
structure CountryPlot where
  mainLine : List (ℚ × ℚ)
  targetSegments : List (ℚ × ℚ × ℚ)
deriving DecidableEq, Repr

def country_target_plot (data : List (ℚ × ℚ)) (pledges : List Pledge) :
    Option CountryPlot := do
  let td ← get_target_emissions_dict data pledges
  let lastYear ← (data.map Prod.fst).getLast?
  pure { mainLine := data.map (fun r => (r.1, r.2 * conversion)),
         targetSegments :=
           (td.target_emissions.map (fun e => e * conversion)).map
             (fun v => (td.baseline_year, lastYear, v)) }

/-- Embedding of
`df[['year','total_emissions']].groupby(by=['year']).sum().reset_index()`
(app.py lines 254-257 and 261-264).  A subnational emissions record is
`(actor, year, total_emissions)`; the actor column is dropped by the
projection, the rows are grouped by year (pandas sorts the group keys
ascending) and `total_emissions` is summed within each group. -/
def df_sum (records : List (String × ℚ × ℚ)) : List (ℚ × ℚ) :=
  let years := List.insertionSort (fun a b => a ≤ b)
    ((records.map (fun r => r.2.1)).dedup)
  years.map (fun y =>
    (y, ((records.filter (fun r => r.2.1 == y)).map (fun r => r.2.2)).sum))

/-- NumPy subtraction `a - b` of two one-dimensional float64 arrays
(shapes `(n,)`): elementwise when the lengths agree, broadcast when one
side has length 1, and a raised `ValueError` (= `none`) otherwise. -/
def numpy_sub (a b : List ℚ) : Option (List ℚ) :=
  if a.length = b.length then
    some (List.zipWith (fun x y => x - y) a b)
  else if b.length = 1 then
    some (a.map (fun x => x - b.headD 0))
  else if a.length = 1 then
    some (b.map (fun y => a.headD 0 - y))
  else
    none

/-- Embedding of the difference plot (app.py lines 312 and 352):
`difference = country_total.values - subnational_total.values` is a
positional NumPy subtraction of the two value arrays, and the result is
plotted against the NATIONAL series' `year` column
(`ax.plot(data['year'], difference, ...)`).  The year-indexed series
the app displays is therefore the national years zipped with the
positional differences. -/
def difference_series (natl subn : List (ℚ × ℚ)) : Option (List (ℚ × ℚ)) :=
  (numpy_sub (natl.map Prod.snd) (subn.map Prod.snd)).map
    (fun d => List.zip (natl.map Prod.fst) d)

/-- The memo cache of `@st.cache` on `get_actor_pledge`, keyed by the
actor id. -/
abbrev Cache := List (String × List Pledge)

/-- The observable outcome of running a (possibly fetching) computation:
its result, the cache afterwards, and the list of actor ids for which a
network request was issued during the call. -/
structure FetchOut (α : Type) where
  result : α
  cache : Cache
  requests : List String
deriving Repr

/-- Embedding of `get_actor_pledge(actor_id)` (app.py lines 16-24)
under `@st.cache`: a read-through memoised fetch.  `net` is the remote
API (actor id to its `targets` list).  On a cache hit no request is
made; on a miss the API is queried, the response recorded in the cache,
and the request logged. -/
def get_actor_pledge (net : String → List Pledge) (cache : Cache)
    (actor_id : String) : FetchOut (List Pledge) :=
  match cache.lookup actor_id with
  | some p => ⟨p, cache, []⟩
  | none => ⟨net actor_id, (actor_id, net actor_id) :: cache, [actor_id]⟩

/-- Embedding of a full invocation `get_target_emissions(data, actor_id)`
including its internal call to the cached `get_actor_pledge`: the pledge
list is fetched (possibly issuing a network request and growing the
cache) and the pure target computation is applied to it. -/
def get_target_emissions_run (net : String → List Pledge) (cache : Cache)
    (data : List (ℚ × ℚ)) (actor_id : String) :
    FetchOut (Option (List ℚ)) :=
  let f := get_actor_pledge net cache actor_id
  ⟨get_target_emissions data f.result, f.cache, f.requests⟩

/-! ## Theorems -/

/-- C1: for every emissions series containing exactly one row for the
baseline year `Y` with value `v`, and every pledge giving baseline year
`Y` and target percentage `p`, `get_target_emissions_dict` computes the
target `v * (100 - p) / 100` (so `p = 100` gives `0` and `p = 0` gives
`v` back). -/
theorem target_dict_formula (data : List (ℚ × ℚ)) (Y v p : ℚ)
    (rest : List Pledge)
    (h : (data.filter (fun r => r.1 == Y)).map Prod.snd = [v]) :
    get_target_emissions_dict data (⟨.num Y, .num p⟩ :: rest) =
      some ⟨[v * ((100 - p) / 100)], Y⟩ := by
  simp [get_target_emissions_dict, pyFloat, h]

/-- Witness for C1, realising the spec scenario: national series
`{2005: 100, 2010: 90}` with pledge `{baseline_year: 2005,
target_value: 30}` yields target `70`. -/
theorem target_dict_formula_witness :
    get_target_emissions_dict [(2005, 100), (2010, 90)]
      [⟨.num 2005, .num 30⟩] = some ⟨[70], 2005⟩ := by
  have h := target_dict_formula [(2005, 100), (2010, 90)] 2005 100 30 []
    (by decide)
  rw [h]
  norm_num

/-- C6 counterexample: with an empty pledge list the code does not skip
the target computation; `pledges[0]` raises an `IndexError` (modelled
by `none`), at the concrete series `{2005: 100}`. -/
theorem empty_pledges_cex :
    get_target_emissions_dict [(2005, 100)] [] = none ∧
    get_target_emissions [(2005, 100)] [] = none := by
  exact ⟨rfl, rfl⟩

/-- C6 (amended): for every emissions series, calling the target
computation with an empty pledge list raises (`pledges[0]` on an empty
list), rather than skipping without error. -/
theorem empty_pledges_raise (data : List (ℚ × ℚ)) :
    get_target_emissions_dict data [] = none ∧
    get_target_emissions data [] = none :=
  ⟨rfl, rfl⟩

/-- C7: the target computation depends only on the first pledge: two
pledge lists with the same first element give the same result on the
same series, whatever the remaining pledges are, for both
implementations. -/
theorem first_pledge_only (data : List (ℚ × ℚ)) (p : Pledge)
    (r1 r2 : List Pledge) :
    get_target_emissions_dict data (p :: r1) =
        get_target_emissions_dict data (p :: r2) ∧
    get_target_emissions data (p :: r1) =
        get_target_emissions data (p :: r2) :=
  ⟨rfl, rfl⟩

/-- C9 counterexample: the two implementations disagree when the API
returns `baseline_year` as a string.  On the series `{2005: 100}` with
pledge `{baseline_year: "2005", target_value: 30}`,
`get_target_emissions` compares the float64 `year` column against the
raw string (elementwise `False`) and returns an empty series, while
`get_target_emissions_dict` compares against `float("2005") = 2005.0`
and returns `[70]`. -/
theorem target_impls_disagree_cex :
    get_target_emissions [(2005, 100)] [⟨.str "2005" 2005, .num 30⟩] =
        some [] ∧
    (get_target_emissions_dict [(2005, 100)]
        [⟨.str "2005" 2005, .num 30⟩]).map TargetDict.target_emissions =
        some [70] ∧
    get_target_emissions [(2005, 100)] [⟨.str "2005" 2005, .num 30⟩] ≠
      (get_target_emissions_dict [(2005, 100)]
        [⟨.str "2005" 2005, .num 30⟩]).map TargetDict.target_emissions := by
  have h1 : get_target_emissions [(2005, 100)]
      [⟨.str "2005" 2005, .num 30⟩] = some [] := by
    simp [get_target_emissions, pyEqNum]
  have h2 : get_target_emissions_dict [(2005, 100)]
      [⟨.str "2005" 2005, .num 30⟩] = some ⟨[70], 2005⟩ := by
    simp [get_target_emissions_dict, pyFloat]
    norm_num
  refine ⟨h1, ?_, ?_⟩
  · rw [h2]
    rfl
  · rw [h1, h2]
    simp

/-- C9 (amended): the two implementations agree whenever the first
pledge's `baseline_year` is a JSON number: then the raw comparison and
the `float()`-converted comparison select the same rows, so
`get_target_emissions data pledges` equals the `target_emissions` field
of `get_target_emissions_dict data pledges`. -/
theorem target_impls_agree_on_numeric (data : List (ℚ × ℚ)) (q : ℚ)
    (tv : PyVal) (rest : List Pledge) :
    get_target_emissions data (⟨.num q, tv⟩ :: rest) =
      (get_target_emissions_dict data (⟨.num q, tv⟩ :: rest)).map
        TargetDict.target_emissions := by
  simp [get_target_emissions, get_target_emissions_dict, pyFloat, pyEqNum]

/-- C2 counterexample: the reconciliation does not intersect years.
With national series `{2010: 100}` and aggregated subnational series
`{2011: 70}` there is no common year, so the claimed difference series
is empty; the code instead subtracts positionally and displays the
entry `(2010, 30)`, whose year `2010` is absent from the subnational
series. -/
theorem reconcile_year_intersection_cex :
    difference_series [(2010, 100)] [(2011, 70)] = some [(2010, 30)] ∧
    (2010 : ℚ) ∉ ([(2011, 70)] : List (ℚ × ℚ)).map Prod.fst := by
  constructor
  · have h : numpy_sub [(100 : ℚ)] [70] = some [30] := by
      simp [numpy_sub]
      norm_num
    simp [difference_series, h]
  · decide

/-- C2 (amended): the reconciliation is positional, not year-indexed.
When the two series have the same number of rows, the displayed
difference series pairs the NATIONAL series' years, in order, with the
positional differences of the value arrays; years play no role in the
matching, and unequal row counts of incompatible shape raise instead of
being excluded. -/
theorem difference_series_positional (natl subn : List (ℚ × ℚ))
    (h : natl.length = subn.length) :
    difference_series natl subn =
      some (List.zip (natl.map Prod.fst)
        (List.zipWith (fun x y => x - y)
          (natl.map Prod.snd) (subn.map Prod.snd))) := by
  simp [difference_series, numpy_sub, h]

/-- Witness for the amended C2: national `{2010: 100, 2011: 90}`
against subnational `{2010: 70, 2012: 50}` gives `{2010: 30, 2011: 40}`;
the second entry pairs the national year 2011 with the subnational row
for 2012. -/
theorem difference_series_positional_witness :
    difference_series [(2010, 100), (2011, 90)] [(2010, 70), (2012, 50)] =
      some [(2010, 30), (2011, 40)] := by
  have h := difference_series_positional [(2010, 100), (2011, 90)]
    [(2010, 70), (2012, 50)] (by decide)
  rw [h]
  norm_num

/-- C10 counterexample: the positional difference is not defined ONLY
for equal lengths: NumPy broadcasting also accepts a length-1 array.
With national values `[100, 90]` and a single aggregated subnational
value `[70]`, the subtraction succeeds and yields `[30, 20]`. -/
theorem difference_broadcast_cex :
    numpy_sub [100, 90] [70] = some [30, 20] ∧
    ([100, 90] : List ℚ).length ≠ ([70] : List ℚ).length := by
  constructor
  · simp [numpy_sub]
    norm_num
  · decide

/-- C10 (amended): the difference is computed positionally over the
underlying value arrays: it is well-defined exactly when the two arrays
have the same length or one of them has length 1 (NumPy broadcasting),
and when the lengths are equal, entry `i` equals `national[i] -
subnational[i]`, paired by array position. -/
theorem numpy_sub_positional (a b : List ℚ) :
    ((numpy_sub a b).isSome ↔
      (a.length = b.length ∨ a.length = 1 ∨ b.length = 1)) ∧
    (a.length = b.length →
      numpy_sub a b = some (List.zipWith (fun x y => x - y) a b)) := by
  constructor
  · simp only [numpy_sub]
    split
    · simp only [Option.isSome_some, true_iff]
      tauto
    · split
      · simp only [Option.isSome_some, true_iff]
        tauto
      · split
        · simp only [Option.isSome_some, true_iff]
          tauto
        · simp only [Option.isSome_none, false_iff]
          tauto
  · intro h
    simp [numpy_sub, h]

/-- Witness for the amended C10: equal-length value arrays `[100, 90]`
and `[70, 50]` subtract positionally to `[30, 40]`. -/
theorem numpy_sub_positional_witness :
    numpy_sub [100, 90] [70, 50] = some [30, 40] := by
  have h := (numpy_sub_positional [100, 90] [70, 50]).2 (by decide)
  rw [h]
  norm_num

/-- The year column of the grouped frame is the sorted deduplication of
the input year column. -/
theorem df_sum_fst (records : List (String × ℚ × ℚ)) :
    (df_sum records).map Prod.fst =
      List.insertionSort (fun a b => a ≤ b)
        ((records.map (fun r => r.2.1)).dedup) := by
  simp only [df_sum, List.map_map, Function.comp_def]
  exact List.map_id' _

/-- C3: the by-year aggregation has exactly one entry per distinct year
of the input (no duplicate years in the output, and a year appears in
the output iff some input record has it), each entry holds the sum of
`total_emissions` over the records with that year, and the spec
scenario `[(ON,2010,40),(QC,2010,30),(ON,2011,42)]` aggregates to
`{2010: 70, 2011: 42}`. -/
theorem df_sum_groups_and_sums (records : List (String × ℚ × ℚ)) :
    ((df_sum records).map Prod.fst).Nodup ∧
    (∀ y : ℚ, y ∈ (df_sum records).map Prod.fst ↔
        y ∈ records.map (fun r => r.2.1)) ∧
    (∀ e ∈ df_sum records,
        e.2 = ((records.filter (fun r => r.2.1 == e.1)).map
          (fun r => r.2.2)).sum) ∧
    df_sum [("ON", 2010, 40), ("QC", 2010, 30), ("ON", 2011, 42)] =
      [(2010, 70), (2011, 42)] := by
  refine ⟨?_, ?_, ?_, ?_⟩
  · rw [df_sum_fst]
    exact (List.perm_insertionSort _ _).nodup_iff.mpr
      (List.nodup_dedup _)
  · intro y
    rw [df_sum_fst]
    rw [(List.perm_insertionSort _ _).mem_iff]
    exact List.mem_dedup
  · intro e he
    simp only [df_sum, List.mem_map] at he
    obtain ⟨y, _, rfl⟩ := he
    rfl
  · have hy : List.insertionSort (fun a b => a ≤ b)
        ((([("ON", 2010, 40), ("QC", 2010, 30), ("ON", 2011, 42)] :
          List (String × ℚ × ℚ)).map (fun r => r.2.1)).dedup) =
        [2010, 2011] := by
      decide
    simp only [df_sum, hy, List.map_cons, List.map_nil]
    norm_num

/-- Witness for C3 at the scenario records: the entry `(2010, 70)` is
in the aggregate and its value is the sum of the 2010 records. -/
theorem df_sum_groups_and_sums_witness :
    ((2010 : ℚ), (70 : ℚ)) ∈
      df_sum [("ON", 2010, 40), ("QC", 2010, 30), ("ON", 2011, 42)] ∧
    ((2010 : ℚ), (70 : ℚ)).2 =
      ((([("ON", 2010, 40), ("QC", 2010, 30), ("ON", 2011, 42)] :
        List (String × ℚ × ℚ)).filter
          (fun r => r.2.1 == ((2010 : ℚ), (70 : ℚ)).1)).map
        (fun r => r.2.2)).sum := by
  have hall := df_sum_groups_and_sums
    [("ON", 2010, 40), ("QC", 2010, 30), ("ON", 2011, 42)]
  have hmem : ((2010 : ℚ), (70 : ℚ)) ∈
      df_sum [("ON", 2010, 40), ("QC", 2010, 30), ("ON", 2011, 42)] := by
    rw [hall.2.2.2]
    simp
  exact ⟨hmem, hall.2.2.1 _ hmem⟩

/-- C4: the by-year aggregation is invariant under reordering of the
input records: any permutation of the record list produces the same
grouped frame (the group keys are sorted, and the sum within each group
is over a permuted sub-list, so equal). -/
theorem df_sum_perm_invariant (l1 l2 : List (String × ℚ × ℚ))
    (h : l1.Perm l2) : df_sum l1 = df_sum l2 := by
  have hyears : List.insertionSort (fun a b => a ≤ b)
      ((l1.map (fun r => r.2.1)).dedup) =
      List.insertionSort (fun a b => a ≤ b)
      ((l2.map (fun r => r.2.1)).dedup) := by
    refine List.eq_of_perm_of_sorted ?_
      (List.sorted_insertionSort _ _) (List.sorted_insertionSort _ _)
    exact (List.perm_insertionSort _ _).trans
      (((h.map _).dedup).trans (List.perm_insertionSort _ _).symm)
  simp only [df_sum, hyears]
  refine List.map_congr_left (fun y _ => ?_)
  have hsum : ((l1.filter (fun r => r.2.1 == y)).map (fun r => r.2.2)).Perm
      ((l2.filter (fun r => r.2.1 == y)).map (fun r => r.2.2)) :=
    (h.filter _).map _
  rw [hsum.sum_eq]

/-- Witness for C4 at a concrete permutation: swapping the first two
records of the scenario list leaves the aggregate unchanged. -/
theorem df_sum_perm_invariant_witness :
    df_sum [("ON", 2010, 40), ("QC", 2010, 30), ("ON", 2011, 42)] =
      df_sum [("QC", 2010, 30), ("ON", 2010, 40), ("ON", 2011, 42)] :=
  df_sum_perm_invariant _ _ (by decide)

/-- C5 counterexample: the render is not failure-free for EVERY series
missing the baseline year.  The empty series does not contain baseline
year 2005, yet the country plot raises: after the (empty) target
computation, the caller evaluates `list(data['year'])[-1]`, an
`IndexError` on an empty frame, so the whole render fails. -/
theorem missing_baseline_render_cex :
    country_target_plot [] [⟨.num 2005, .num 30⟩] = none ∧
    (2005 : ℚ) ∉ ([] : List (ℚ × ℚ)).map Prod.fst := by
  exact ⟨rfl, by decide⟩

/-- C5 (amended): for every NONEMPTY emissions series that does not
contain the pledge's baseline year, the target computation yields an
empty series, the caller draws no target segment (plotting an empty
value series draws nothing and does not raise), and the rest of the
chart — the national emissions line — is rendered unchanged.  For an
empty series the render itself fails at `list(data['year'])[-1]`. -/
theorem missing_baseline_skips_target (data : List (ℚ × ℚ)) (p : Pledge)
    (rest : List Pledge) (hne : data ≠ [])
    (habs : pyFloat p.baseline_year ∉ data.map Prod.fst) :
    ∃ cp, country_target_plot data (p :: rest) = some cp ∧
      cp.targetSegments = [] ∧
      cp.mainLine = data.map (fun r => (r.1, r.2 * conversion)) := by
  have hfilter : data.filter (fun r => r.1 == pyFloat p.baseline_year) = [] := by
    refine List.filter_eq_nil_iff.mpr (fun r hr => ?_)
    simp only [beq_iff_eq]
    intro heq
    exact habs (heq ▸ List.mem_map_of_mem Prod.fst hr)
  have hlast : (data.map Prod.fst).getLast?.isSome := by
    rw [List.getLast?_isSome]
    simpa using hne
  obtain ⟨y, hy⟩ := Option.isSome_iff_exists.mp hlast
  refine ⟨⟨data.map (fun r => (r.1, r.2 * conversion)), []⟩, ?_, rfl, rfl⟩
  simp only [country_target_plot, get_target_emissions_dict, hfilter, hy,
    Option.bind_eq_bind, Option.some_bind, List.map_nil, Option.pure_def]

/-- Witness for the amended C5: series `{2005: 100, 2010: 90}` with a
pledge whose baseline year 2003 is absent renders the national line
with no target segment. -/
theorem missing_baseline_skips_target_witness :
    ∃ cp, country_target_plot [(2005, 100), (2010, 90)]
        [⟨.num 2003, .num 30⟩] = some cp ∧
      cp.targetSegments = [] ∧
      cp.mainLine = ([(2005, 100), (2010, 90)] : List (ℚ × ℚ)).map
        (fun r => (r.1, r.2 * conversion)) :=
  missing_baseline_skips_target [(2005, 100), (2010, 90)]
    ⟨.num 2003, .num 30⟩ [] (by decide) (by decide)

/-- C8 counterexample: an invocation of the target computation is not
free of I/O beyond its arguments.  With a cold cache, the concrete call
on actor `CA` issues a network request to the pledge API (and stores
the response in the cache). -/
theorem target_run_io_cex :
    (get_target_emissions_run (fun _ => [⟨.num 2005, .num 30⟩]) []
      [(2005, 100)] "CA").requests = ["CA"] ∧
    (get_target_emissions_run (fun _ => [⟨.num 2005, .num 30⟩]) []
      [(2005, 100)] "CA").cache =
      [("CA", [⟨.num 2005, .num 30⟩])] := by
  exact ⟨rfl, rfl⟩

/-- C8 (amended): the target computation is pure except for a single
read-through cached fetch of the actor's pledges: an invocation issues
at most one network request and touches no state but the memo cache;
for a fixed remote API, a repeated invocation with identical inputs
returns the identical result and, the cache now being warm, performs no
network request at all. -/
theorem target_run_deterministic (net : String → List Pledge)
    (cache : Cache) (data : List (ℚ × ℚ)) (actor_id : String) :
    (get_target_emissions_run net cache data actor_id).requests.length ≤ 1 ∧
    (get_target_emissions_run net
        (get_target_emissions_run net cache data actor_id).cache
        data actor_id).result =
      (get_target_emissions_run net cache data actor_id).result ∧
    (get_target_emissions_run net
        (get_target_emissions_run net cache data actor_id).cache
        data actor_id).requests = [] := by
  unfold get_target_emissions_run get_actor_pledge
  cases h : cache.lookup actor_id with
  | some p => simp [h]
  | none => simp [h, List.lookup]

end OpenClimate
